import Mathlib

/-!
Shallow embedding of the type-lowering subsystem in `src/ir/irtype.cpp`
(the LDC IrType hierarchy): semantic types are nodes of an identified
graph, lowered types are tagged values with an allocation identity, and
the per-node `ctype` cache is explicit state.  External collaborators
(`DtoType`, `DtoMemType`, `DtoSize_t`) are modelled from the spec.
-/

namespace IrLower

/-- Target architectures distinguished by `getReal80Type`
(model of `llvm::Triple::ArchType`). -/
inductive Arch where
  | x86
  | x86_64
  | aarch64
  | aarch64_be
  | otherArch
  deriving DecidableEq, Repr

/-- Operating systems distinguished by the triple queries the source makes. -/
inductive OS where
  | win32
  | macosx
  | ios
  | tvos
  | watchos
  | linux
  | otherOS
  deriving DecidableEq, Repr

/-- Environment component of the target triple. -/
inductive Env where
  | msvc
  | android
  | gnu
  | unknownEnv
  | otherEnv
  deriving DecidableEq, Repr

/-- Target description: (architecture, OS, environment) triple. -/
structure Triple where
  arch : Arch
  os : OS
  env : Env
  deriving DecidableEq, Repr

/-- Model of `llvm::Triple::isWindowsMSVCEnvironment`:
Win32 OS together with the MSVC or unspecified environment. -/
def Triple.isWindowsMSVCEnvironment (t : Triple) : Bool :=
  t.os == OS.win32 && (t.env == Env.msvc || t.env == Env.unknownEnv)

/-- Model of `llvm::Triple::isOSDarwin`: any Apple OS. -/
def Triple.isOSDarwin (t : Triple) : Bool :=
  t.os == OS.macosx || t.os == OS.ios || t.os == OS.tvos || t.os == OS.watchos

/-- Machine-level (LLVM) types, as built by the source file.  Every literal
struct the source constructs has exactly two fields f0, f1, so a call to
`llvm::StructType::get` with a two-element field array is embedded as
`LLType.struct2 f0 f1 packed`. -/
inductive LLType where
  | void
  | int (bits : Nat)
  | float
  | double
  | x86_fp80
  | fp128
  | struct2 (f0 : LLType) (f1 : LLType) (packed : Bool)
  | pointer (elem : LLType) (addrSpace : Nat)
  | array (elem : LLType) (dim : Nat)
  | vector (elem : LLType) (lanes : Nat) (scalable : Bool)
  | aggregateBody (tid : Nat)
  deriving DecidableEq, Repr

/-- `getReal80Type` (src/ir/irtype.cpp, lines 50-73): resolves the machine
representation of the D 80-bit extended real for the target triple. -/
def getReal80Type (triple : Triple) : LLType :=
  let a := triple.arch
  let anyX86 := a == Arch.x86 || a == Arch.x86_64
  let anyAarch64 := a == Arch.aarch64 || a == Arch.aarch64_be
  let isAndroid := triple.env == Env.android
  if anyX86 && !triple.isWindowsMSVCEnvironment && !isAndroid then
    LLType.x86_fp80
  else if (anyAarch64 && !triple.isOSDarwin) || (isAndroid && a == Arch.x86_64) then
    LLType.fp128
  else
    LLType.double

/-- Identity of a semantic type node in the front end's type graph. -/
abbrev TypeId := Nat

/-- The `ty` tag of a front-end semantic type (`Type::ty`). -/
inductive TY where
  | Tvoid | Tnoreturn
  | Tint8 | Tuns8 | Tchar
  | Tint16 | Tuns16 | Twchar
  | Tint32 | Tuns32 | Tdchar
  | Tint64 | Tuns64
  | Tint128 | Tuns128
  | Tfloat32 | Timaginary32
  | Tfloat64 | Timaginary64
  | Tfloat80 | Timaginary80
  | Tcomplex32 | Tcomplex64 | Tcomplex80
  | Tbool
  | Tpointer | Tnull
  | Tsarray | Tarray | Tvector
  | Tstruct | Tclass
  | Tother
  deriving DecidableEq, Repr

/-- The scalar kinds handled by `IrTypeBasic::basic2llvm`, i.e. the kinds
the lowering driver dispatches to `IrTypeBasic::get`. -/
def TY.isBasic (ty : TY) : Bool :=
  match ty with
  | TY.Tvoid | TY.Tnoreturn
  | TY.Tint8 | TY.Tuns8 | TY.Tchar
  | TY.Tint16 | TY.Tuns16 | TY.Twchar
  | TY.Tint32 | TY.Tuns32 | TY.Tdchar
  | TY.Tint64 | TY.Tuns64
  | TY.Tint128 | TY.Tuns128
  | TY.Tfloat32 | TY.Timaginary32
  | TY.Tfloat64 | TY.Timaginary64
  | TY.Tfloat80 | TY.Timaginary80
  | TY.Tcomplex32 | TY.Tcomplex64 | TY.Tcomplex80
  | TY.Tbool => true
  | _ => false

/-- A semantic type node: kind tag plus the kind-specific payload fields
read by the source (`nextOf()`, evaluated `dim`, vector `basetype`,
qualifier bits and the unqualified variant, and for aggregates the
declaring symbol's canonical type `sym->type`). -/
structure TypeNode where
  ty : TY
  mod : Nat
  unqual : TypeId
  next : TypeId
  dim : Nat
  basetype : TypeId
  symType : TypeId
  deriving DecidableEq, Repr

/-- The front end's (read-only, possibly cyclic) semantic type graph. -/
abbrev Store := TypeId → TypeNode

/-- Modelled from the spec: the front end's `stripModifiers` — the
unqualified variant of `t`, the identity on an already-unqualified node. -/
def stripModifiers (store : Store) (t : TypeId) : TypeId :=
  if (store t).mod = 0 then t else (store t).unqual

/-- The dynamic category of an `IrType` instance (which leaf class of the
C++ `IrType` hierarchy it is; used for the `isPointer`-style downcasts). -/
inductive IrTag where
  | basic | pointer | sarray | array | vector | aggregate
  deriving DecidableEq, Repr

/-- A lowered (Ir) type instance: allocation identity `id`, dynamic
category `tag`, the semantic type it was built from (`dtype`) and the
machine type payload (`type`). -/
structure IrType where
  id : Nat
  tag : IrTag
  dtype : TypeId
  type : LLType
  deriving DecidableEq, Repr

/-- `IrType::isPointer` downcast: the instance itself when it is a
pointer, otherwise the null pointer (`none`). -/
def IrType.isPointer (ir : IrType) : Option IrType :=
  if ir.tag = IrTag.pointer then some ir else none

/-- `IrType::isSArray` downcast. -/
def IrType.isSArray (ir : IrType) : Option IrType :=
  if ir.tag = IrTag.sarray then some ir else none

/-- `IrType::isArray` downcast. -/
def IrType.isArray (ir : IrType) : Option IrType :=
  if ir.tag = IrTag.array then some ir else none

/-- `IrType::isVector` downcast. -/
def IrType.isVector (ir : IrType) : Option IrType :=
  if ir.tag = IrTag.vector then some ir else none

/-- Mutable lowering state: the per-node `ctype` slots and the allocation
counter providing instance identity for `new`-ed `IrType`s. -/
structure St where
  slots : TypeId → Option IrType
  nextId : Nat

/-- Write a slot (`t->ctype = ir`). -/
def St.setSlot (st : St) (t : TypeId) (ir : IrType) : St :=
  ⟨fun u => if u = t then some ir else st.slots u, st.nextId⟩

/-- Failure classes: fatal assertions and `llvm_unreachable`, plus the
model-only fuel exhaustion marker for the recursion bound. -/
inductive LErr where
  | assertFail (msg : String)
  | unreachableCase (msg : String)
  | outOfFuel
  deriving DecidableEq, Repr

/-- The type of the external lowering driver (`DtoType`) as seen by the
Entry Point. -/
abbrev Driver := TypeId → St → Except LErr St

/-- A driver placeholder for calls with `create = false`, which never
invoke the driver. -/
def idDriver : Driver := fun _ st => Except.ok st

/-- `getIrType` (src/ir/irtype.cpp, lines 241-256), with the external
driver `DtoType` passed as parameter `d`: asserts the canonical form of
struct/class types, strips qualifiers, optionally delegates creation to
the driver and asserts the slot is then populated.  It returns the
identity of the slot the C++ function returns a reference to, together
with the updated state. -/
def getIrTypeF (store : Store) (d : Driver) (t : TypeId) (create : Bool) (st : St) :
    Except LErr (TypeId × St) :=
  if (store t).ty = TY.Tstruct ∧ t ≠ (store t).symType then
    Except.error (LErr.assertFail "use sd->type for structs")
  else if (store t).ty = TY.Tclass ∧ t ≠ (store t).symType then
    Except.error (LErr.assertFail "use cd->type for classes")
  else
    let t' := stripModifiers store t
    if create then
      match d t' st with
      | Except.error e => Except.error e
      | Except.ok st' =>
        if (st'.slots t').isSome then Except.ok (t', st')
        else Except.error (LErr.assertFail "t->ctype")
    else
      Except.ok (t', st)

/-- The `IrType::IrType(Type*, LLType*)` base constructor (lines 24-28):
asserts via `getIrType(dt)` that the unqualified `dt` has no `IrType`
yet, then allocates a fresh instance; storing into the slot is left to
the caller, as in the C++. -/
def IrType.construct (store : Store) (tag : IrTag) (dt : TypeId) (lt : LLType) (st : St) :
    Except LErr (IrType × St) :=
  match getIrTypeF store idDriver dt false st with
  | Except.error e => Except.error e
  | Except.ok (tid, st₀) =>
    if (st₀.slots tid).isSome then Except.error (LErr.assertFail "already has IrType")
    else Except.ok (⟨st₀.nextId, tag, dt, lt⟩, ⟨st₀.slots, st₀.nextId + 1⟩)

/-- Target configuration: the triple plus the pointer width that
determines the native size type. -/
structure Config where
  triple : Triple
  ptrBits : Nat
  deriving DecidableEq, Repr

/-- Modelled from the spec: `DtoSize_t` (`NativeSizeType`) — the
platform's native-width unsigned size type, an integer of pointer
width. -/
def DtoSize_t (cfg : Config) : LLType := LLType.int cfg.ptrBits

/-- `IrTypeBasic::getComplexType` (lines 44-47): an anonymous, non-packed
two-field struct of two copies of `type`. -/
def getComplexType (type : LLType) : LLType := LLType.struct2 type type false

/-- `IrTypeBasic::basic2llvm` (lines 76-133). -/
def basic2llvm (cfg : Config) (ty : TY) : Except LErr LLType :=
  match ty with
  | TY.Tvoid | TY.Tnoreturn => Except.ok LLType.void
  | TY.Tint8 | TY.Tuns8 | TY.Tchar => Except.ok (LLType.int 8)
  | TY.Tint16 | TY.Tuns16 | TY.Twchar => Except.ok (LLType.int 16)
  | TY.Tint32 | TY.Tuns32 | TY.Tdchar => Except.ok (LLType.int 32)
  | TY.Tint64 | TY.Tuns64 => Except.ok (LLType.int 64)
  | TY.Tint128 | TY.Tuns128 => Except.ok (LLType.int 128)
  | TY.Tfloat32 | TY.Timaginary32 => Except.ok LLType.float
  | TY.Tfloat64 | TY.Timaginary64 => Except.ok LLType.double
  | TY.Tfloat80 | TY.Timaginary80 => Except.ok (getReal80Type cfg.triple)
  | TY.Tcomplex32 => Except.ok (getComplexType LLType.float)
  | TY.Tcomplex64 => Except.ok (getComplexType LLType.double)
  | TY.Tcomplex80 => Except.ok (getComplexType (getReal80Type cfg.triple))
  | TY.Tbool => Except.ok (LLType.int 1)
  | _ => Except.error (LErr.unreachableCase "Unknown basic type.")

/-- `IrTypeBasic::get` (lines 38-42): construct (which asserts the slot
is empty) and store into the slot via `getIrType(dt) = t`. -/
def IrTypeBasicGet (cfg : Config) (store : Store) (dt : TypeId) (st : St) :
    Except LErr (IrType × St) :=
  match basic2llvm cfg (store dt).ty with
  | Except.error e => Except.error e
  | Except.ok lt =>
    match IrType.construct store IrTag.basic dt lt st with
    | Except.error e => Except.error e
    | Except.ok (t, st₁) =>
      match getIrTypeF store idDriver dt false st₁ with
      | Except.error e => Except.error e
      | Except.ok (tid, st₂) => Except.ok (t, st₂.setSlot tid t)

/-- Modelled from the spec: `DtoMemType` (`MemoryRepresentation`) — the
memory-layout resolver; calls back into the Entry Point with creation
requested and reads the machine type off the resulting slot. -/
def DtoMemTypeF (store : Store) (d : Driver) (t : TypeId) (st : St) :
    Except LErr (LLType × St) :=
  match getIrTypeF store d t true st with
  | Except.error e => Except.error e
  | Except.ok (tid, st') =>
    match st'.slots tid with
    | some ir => Except.ok (ir.type, st')
    | none => Except.error (LErr.assertFail "DtoMemType: empty slot")

/-- `IrTypePointer::get` (lines 139-161), with the recursive lowering
driver passed as `d`: for `Tnull` the pointee is an 8-bit integer; for
`Tpointer` the pointee is lowered first and the slot re-checked before a
new instance is allocated. -/
def IrTypePointerGet (store : Store) (d : Driver) (dt : TypeId) (st : St) :
    Except LErr (Option IrType × St) :=
  if ¬((store dt).ty = TY.Tpointer ∨ (store dt).ty = TY.Tnull) then
    Except.error (LErr.assertFail "not pointer/null type")
  else
    match getIrTypeF store idDriver dt false st with
    | Except.error e => Except.error e
    | Except.ok (slotId, st₀) =>
      if (st₀.slots slotId).isSome then
        Except.error (LErr.assertFail "IrTypePointer: slot not empty")
      else if (store dt).ty = TY.Tnull then
        match IrType.construct store IrTag.pointer dt (LLType.pointer (LLType.int 8) 0) st₀ with
        | Except.error e => Except.error e
        | Except.ok (t, st₁) => Except.ok (some t, st₁.setSlot slotId t)
      else
        match DtoMemTypeF store d (store dt).next st₀ with
        | Except.error e => Except.error e
        | Except.ok (elemType, st₁) =>
          match st₁.slots slotId with
          | some c => Except.ok (c.isPointer, st₁)
          | none =>
            match IrType.construct store IrTag.pointer dt (LLType.pointer elemType 0) st₁ with
            | Except.error e => Except.error e
            | Except.ok (t, st₂) => Except.ok (some t, st₂.setSlot slotId t)

/-- `IrTypeSArray::get` (lines 167-184): lower the element type first,
re-check the slot, and only if it is still empty build a machine array
of `dim` elements. -/
def IrTypeSArrayGet (store : Store) (d : Driver) (dt : TypeId) (st : St) :
    Except LErr (Option IrType × St) :=
  if (store dt).ty ≠ TY.Tsarray then
    Except.error (LErr.assertFail "not static array type")
  else
    match getIrTypeF store idDriver dt false st with
    | Except.error e => Except.error e
    | Except.ok (slotId, st₀) =>
      if (st₀.slots slotId).isSome then
        Except.error (LErr.assertFail "IrTypeSArray: slot not empty")
      else
        match DtoMemTypeF store d (store dt).next st₀ with
        | Except.error e => Except.error e
        | Except.ok (elemType, st₁) =>
          match st₁.slots slotId with
          | some c => Except.ok (c.isSArray, st₁)
          | none =>
            match IrType.construct store IrTag.sarray dt (LLType.array elemType (store dt).dim) st₁ with
            | Except.error e => Except.error e
            | Except.ok (t, st₂) => Except.ok (t.isSArray, st₂.setSlot slotId t)

/-- `IrTypeArray::get` (lines 190-207): lower the element type first,
re-check the slot, and only if it is still empty build the two-field fat
pointer struct (native size type, pointer to the element type). -/
def IrTypeArrayGet (cfg : Config) (store : Store) (d : Driver) (dt : TypeId) (st : St) :
    Except LErr (Option IrType × St) :=
  if (store dt).ty ≠ TY.Tarray then
    Except.error (LErr.assertFail "not dynamic array type")
  else
    match getIrTypeF store idDriver dt false st with
    | Except.error e => Except.error e
    | Except.ok (slotId, st₀) =>
      if (st₀.slots slotId).isSome then
        Except.error (LErr.assertFail "IrTypeArray: slot not empty")
      else
        match DtoMemTypeF store d (store dt).next st₀ with
        | Except.error e => Except.error e
        | Except.ok (elemType, st₁) =>
          match st₁.slots slotId with
          | some c => Except.ok (c.isArray, st₁)
          | none =>
            match IrType.construct store IrTag.array dt
                (LLType.struct2 (DtoSize_t cfg) (LLType.pointer elemType 0) false) st₁ with
            | Except.error e => Except.error e
            | Except.ok (t, st₂) => Except.ok (t.isArray, st₂.setSlot slotId t)

/-- `IrTypeVector::get` (lines 213-237): assert the basetype is a static
array, lower its element type, re-check the slot, and only if it is
still empty build a fixed (non-scalable) machine vector of `dim`
lanes. -/
def IrTypeVectorGet (store : Store) (d : Driver) (dt : TypeId) (st : St) :
    Except LErr (Option IrType × St) :=
  if (store dt).ty ≠ TY.Tvector then
    Except.error (LErr.assertFail "not vector type")
  else
    match getIrTypeF store idDriver dt false st with
    | Except.error e => Except.error e
    | Except.ok (slotId, st₀) =>
      if (st₀.slots slotId).isSome then
        Except.error (LErr.assertFail "IrTypeVector: slot not empty")
      else
        if (store (store dt).basetype).ty ≠ TY.Tsarray then
          Except.error (LErr.assertFail "assert(tsa)")
        else
          match DtoMemTypeF store d (store (store dt).basetype).next st₀ with
          | Except.error e => Except.error e
          | Except.ok (elemType, st₁) =>
            match st₁.slots slotId with
            | some c => Except.ok (c.isVector, st₁)
            | none =>
              match IrType.construct store IrTag.vector dt
                  (LLType.vector elemType (store (store dt).basetype).dim false) st₁ with
              | Except.error e => Except.error e
              | Except.ok (t, st₂) => Except.ok (t.isVector, st₂.setSlot slotId t)

/-- Modelled from the spec: the general lowering driver `DtoType`
(`LowerType`) — returns immediately when the slot is already populated,
otherwise dispatches on the structural kind to the matching category
constructor.  Record/class handling lives entirely outside this core and
is only required to leave the slot populated, which the model does by
allocating an opaque aggregate instance.  `fuel` bounds the recursion
depth of the model. -/
def DtoType (cfg : Config) (store : Store) : Nat → TypeId → St → Except LErr St
  | 0, _, _ => Except.error LErr.outOfFuel
  | fuel + 1, t, st =>
    if (st.slots t).isSome then Except.ok st
    else if (store t).ty.isBasic then
      match IrTypeBasicGet cfg store t st with
      | Except.error e => Except.error e
      | Except.ok (_, st') => Except.ok st'
    else if (store t).ty = TY.Tpointer ∨ (store t).ty = TY.Tnull then
      match IrTypePointerGet store (DtoType cfg store fuel) t st with
      | Except.error e => Except.error e
      | Except.ok (_, st') => Except.ok st'
    else if (store t).ty = TY.Tsarray then
      match IrTypeSArrayGet store (DtoType cfg store fuel) t st with
      | Except.error e => Except.error e
      | Except.ok (_, st') => Except.ok st'
    else if (store t).ty = TY.Tarray then
      match IrTypeArrayGet cfg store (DtoType cfg store fuel) t st with
      | Except.error e => Except.error e
      | Except.ok (_, st') => Except.ok st'
    else if (store t).ty = TY.Tvector then
      match IrTypeVectorGet store (DtoType cfg store fuel) t st with
      | Except.error e => Except.error e
      | Except.ok (_, st') => Except.ok st'
    else if (store t).ty = TY.Tstruct ∨ (store t).ty = TY.Tclass then
      Except.ok ((St.setSlot ⟨st.slots, st.nextId + 1⟩ t ⟨st.nextId, IrTag.aggregate, t, LLType.aggregateBody t⟩))
    else
      Except.error (LErr.unreachableCase "unknown semantic type kind")

/-- The Entry Point with the driver instantiated: `getIrType(t, create)`
at recursion budget `fuel`. -/
def getIrType (cfg : Config) (store : Store) (fuel : Nat) (t : TypeId) (create : Bool) (st : St) :
    Except LErr (TypeId × St) :=
  getIrTypeF store (DtoType cfg store fuel) t create st

/-- A sample x86-64/Linux configuration with 64-bit pointers. -/
def exCfg : Config := ⟨⟨Arch.x86_64, OS.linux, Env.gnu⟩, 64⟩

/-- A small concrete semantic type graph (field order: ty, mod, unqual,
next, dim, basetype, symType): node 0 is `int`, 1 is `int*`, 2 is
`int[4]`, 3 is `int[]`, 4 is `float`, 5 is `float[4]`, 6 is a vector
with basetype 5, 7 is a canonical struct, 8 is a const wrapper over the
struct 7, 9 is a const wrapper over `int`, 10 is the null type, 11-13
are `int[0]`, `int[1]`, `int[2^32]`, 14 is `byte[]` with element 15
(`byte`), and 20 is a pointer to the `int` node 21. -/
def exStore : Store := fun i =>
  match i with
  | 0 => ⟨TY.Tint32, 0, 0, 0, 0, 0, 0⟩
  | 1 => ⟨TY.Tpointer, 0, 0, 0, 0, 0, 0⟩
  | 2 => ⟨TY.Tsarray, 0, 0, 0, 4, 0, 0⟩
  | 3 => ⟨TY.Tarray, 0, 0, 0, 0, 0, 0⟩
  | 4 => ⟨TY.Tfloat32, 0, 0, 0, 0, 0, 0⟩
  | 5 => ⟨TY.Tsarray, 0, 0, 4, 4, 0, 0⟩
  | 6 => ⟨TY.Tvector, 0, 0, 0, 0, 5, 0⟩
  | 7 => ⟨TY.Tstruct, 0, 0, 0, 0, 0, 7⟩
  | 8 => ⟨TY.Tstruct, 1, 7, 0, 0, 0, 7⟩
  | 9 => ⟨TY.Tint32, 1, 0, 0, 0, 0, 0⟩
  | 10 => ⟨TY.Tnull, 0, 0, 0, 0, 0, 0⟩
  | 11 => ⟨TY.Tsarray, 0, 0, 0, 0, 0, 0⟩
  | 12 => ⟨TY.Tsarray, 0, 0, 0, 1, 0, 0⟩
  | 13 => ⟨TY.Tsarray, 0, 0, 0, 4294967296, 0, 0⟩
  | 14 => ⟨TY.Tarray, 0, 0, 15, 0, 0, 0⟩
  | 15 => ⟨TY.Tint8, 0, 0, 0, 0, 0, 0⟩
  | 20 => ⟨TY.Tpointer, 0, 0, 21, 0, 0, 0⟩
  | 21 => ⟨TY.Tint32, 0, 0, 0, 0, 0, 0⟩
  | _ => ⟨TY.Tother, 0, 0, 0, 0, 0, 0⟩

/-- The empty lowering state. -/
def st0 : St := ⟨fun _ => none, 0⟩

/-- The slot content the Entry Point leaves behind, as a checkable value. -/
def runSlot (cfg : Config) (store : Store) (fuel : Nat) (t : TypeId) (st : St) :
    Option IrType :=
  match getIrType cfg store fuel t true st with
  | Except.ok (tid, st') => st'.slots tid
  | _ => none

/-- The state after lowering the `int` node 0 in `st0`. -/
def st1c : St :=
  ⟨fun u => if u = 0 then some ⟨0, IrTag.basic, 0, LLType.int 32⟩ else none, 1⟩

/-- The state after lowering the `byte` node 15 in `st0`. -/
def st1b : St :=
  ⟨fun u => if u = 15 then some ⟨0, IrTag.basic, 15, LLType.int 8⟩ else none, 1⟩

/-- The state after lowering the `float` node 4 in `st0`. -/
def st1f : St :=
  ⟨fun u => if u = 4 then some ⟨0, IrTag.basic, 4, LLType.float⟩ else none, 1⟩

/-- A pointer instance that a forward-referencing recursion deposits in
node 20's slot. -/
def fwdIr : IrType := ⟨77, IrTag.pointer, 20, LLType.pointer (LLType.int 32) 0⟩

/-- A driver modelling a recursion that, as a side effect of lowering the
requested node, also populates node 20's slot (the aggregate
forward-reference scenario of I2). -/
def fwdDriver : Driver := fun t st =>
  Except.ok ((st.setSlot t ⟨99, IrTag.basic, t, LLType.int 32⟩).setSlot 20 fwdIr)

/-- The state `fwdDriver` produces from `st0` when asked for node 21. -/
def stW : St :=
  ⟨fun u =>
    if u = 20 then some fwdIr
    else if u = 21 then some ⟨99, IrTag.basic, 21, LLType.int 32⟩
    else none, 0⟩

/-- The Entry Point's canonical-form precondition for struct types. -/
def structCanon (store : Store) (t : TypeId) : Prop :=
  ¬((store t).ty = TY.Tstruct ∧ t ≠ (store t).symType)

/-- The Entry Point's canonical-form precondition for class types. -/
def classCanon (store : Store) (t : TypeId) : Prop :=
  ¬((store t).ty = TY.Tclass ∧ t ≠ (store t).symType)

/-- Slot-state extension: every populated slot of `st` is populated with
the identical instance in `st'`. -/
def SlotsLE (st st' : St) : Prop :=
  ∀ u v, st.slots u = some v → st'.slots u = some v

/-- A driver that only extends the slot state. -/
def DriverMono (d : Driver) : Prop :=
  ∀ t st st', d t st = Except.ok st' → SlotsLE st st'

/-- Well-formed type graph: the unqualified variant of a qualified node
is itself unqualified. -/
def WFStore (store : Store) : Prop :=
  ∀ u, (store u).mod ≠ 0 → (store ((store u).unqual)).mod = 0

/-- `st'` agrees with `st` on every qualified node's slot. -/
def QualUntouched (store : Store) (st st' : St) : Prop :=
  ∀ u, (store u).mod ≠ 0 → st'.slots u = st.slots u

/-- A driver that, run on an unqualified node, leaves every qualified
node's slot untouched. -/
def DriverQual (store : Store) (d : Driver) : Prop :=
  ∀ t st st', (store t).mod = 0 → d t st = Except.ok st' → QualUntouched store st st'

instance (store : Store) (t : TypeId) : Decidable (structCanon store t) := by
  unfold structCanon
  infer_instance

instance (store : Store) (t : TypeId) : Decidable (classCanon store t) := by
  unfold classCanon
  infer_instance

example :
    runSlot exCfg exStore 3 1 st0 =
      some ⟨1, IrTag.pointer, 1, LLType.pointer (LLType.int 32) 0⟩ := rfl

example :
    runSlot exCfg exStore 3 6 st0 =
      some ⟨1, IrTag.vector, 6, LLType.vector LLType.float 4 false⟩ := rfl

example :
    runSlot exCfg exStore 3 3 st0 =
      some ⟨1, IrTag.array, 3,
        LLType.struct2 (LLType.int 64) (LLType.pointer (LLType.int 32) 0) false⟩ := rfl

example : runSlot exCfg exStore 2 9 st0 = runSlot exCfg exStore 2 0 st0 := rfl

example :
    getIrType exCfg exStore 3 8 true st0 =
      Except.error (LErr.assertFail "use sd->type for structs") := rfl

theorem slotsLE_refl (st : St) : SlotsLE st st := fun _ _ h => h

theorem slotsLE_trans {s1 s2 s3 : St} (h1 : SlotsLE s1 s2) (h2 : SlotsLE s2 s3) :
    SlotsLE s1 s3 := fun u v h => h2 u v (h1 u v h)

theorem slotsLE_setSlot {st : St} {t : TypeId} {ir : IrType}
    (h : st.slots t = none) : SlotsLE st (st.setSlot t ir) := by
  intro u v hv
  simp only [St.setSlot]
  by_cases hu : u = t
  · subst hu; rw [hv] at h; cases h
  · simp [hu, hv]

theorem slotsLE_mkSlots {st : St} {n : Nat} : SlotsLE st ⟨st.slots, n⟩ :=
  fun _ _ h => h

/-- With `create = false` the Entry Point only asserts, strips and
returns; in particular it never touches the state or the driver. -/
theorem getIrTypeF_read_inv {store : Store} {d : Driver} {t : TypeId} {st : St}
    {p : TypeId × St} (h : getIrTypeF store d t false st = Except.ok p) :
    p = (stripModifiers store t, st) := by
  unfold getIrTypeF at h
  split at h
  · simp at h
  · split at h
    · simp at h
    · simp at h
      exact h.symm

theorem getIrTypeF_read_eq (store : Store) (d : Driver) (t : TypeId) (st : St)
    (h1 : structCanon store t) (h2 : classCanon store t) :
    getIrTypeF store d t false st = Except.ok (stripModifiers store t, st) := by
  unfold getIrTypeF
  rw [if_neg h1, if_neg h2]
  simp

/-- Inversion of the Entry Point's creation path: the returned slot id is
the stripped type, the driver ran successfully, and the returned slot is
populated. -/
theorem getIrTypeF_create_inv {store : Store} {d : Driver} {t : TypeId} {st : St}
    {p : TypeId × St} (h : getIrTypeF store d t true st = Except.ok p) :
    p.1 = stripModifiers store t ∧ d (stripModifiers store t) st = Except.ok p.2 ∧
      (p.2.slots (stripModifiers store t)).isSome = true := by
  unfold getIrTypeF at h
  split at h
  · simp at h
  split at h
  · simp at h
  simp only [if_pos] at h
  split at h
  · simp at h
  · rename_i st' hd
    split at h
    · rename_i hsome
      simp at h
      cases h
      exact ⟨rfl, hd, hsome⟩
    · simp at h

/-- Inversion of the `IrType` base constructor: the new instance carries
the allocation counter as identity, only the counter changes in the
state, and the (stripped) slot was empty — I4. -/
theorem construct_inv {store : Store} {tag : IrTag} {dt : TypeId} {lt : LLType}
    {st : St} {p : IrType × St}
    (h : IrType.construct store tag dt lt st = Except.ok p) :
    p.1 = ⟨st.nextId, tag, dt, lt⟩ ∧ p.2.slots = st.slots ∧
      p.2.nextId = st.nextId + 1 ∧ st.slots (stripModifiers store dt) = none := by
  unfold IrType.construct at h
  split at h
  · simp at h
  · rename_i tid₀ st₀ hread
    obtain ⟨rfl, rfl⟩ : tid₀ = stripModifiers store dt ∧ st₀ = st := by
      simpa [Prod.ext_iff] using getIrTypeF_read_inv hread
    split at h
    · simp at h
    · rename_i hnone
      simp at h
      cases h
      exact ⟨rfl, rfl, rfl, by simpa using hnone⟩

theorem construct_eq (store : Store) (tag : IrTag) (dt : TypeId) (lt : LLType) (st : St)
    (h1 : structCanon store dt) (h2 : classCanon store dt)
    (hnone : st.slots (stripModifiers store dt) = none) :
    IrType.construct store tag dt lt st =
      Except.ok (⟨st.nextId, tag, dt, lt⟩, ⟨st.slots, st.nextId + 1⟩) := by
  unfold IrType.construct
  rw [getIrTypeF_read_eq store idDriver dt st h1 h2]
  simp [hnone]

/-- Constructing an `IrType` for a semantic type whose slot is already
populated can never succeed (the `assert(!getIrType(dt))` in the base
constructor). -/
theorem construct_fatal {store : Store} {tag : IrTag} {dt : TypeId} {lt : LLType}
    {st : St} {v : IrType} (hsome : st.slots (stripModifiers store dt) = some v) :
    ∀ p, IrType.construct store tag dt lt st ≠ Except.ok p := by
  intro p h
  obtain ⟨-, -, -, hnone⟩ := construct_inv h
  rw [hsome] at hnone
  cases hnone

/-- Inversion of `DtoMemType`: it runs the driver on the stripped type
and returns the machine type stored in the resulting slot. -/
theorem DtoMemTypeF_inv {store : Store} {d : Driver} {t : TypeId} {st : St}
    {p : LLType × St} (h : DtoMemTypeF store d t st = Except.ok p) :
    d (stripModifiers store t) st = Except.ok p.2 ∧
      ∃ ir, p.2.slots (stripModifiers store t) = some ir ∧ ir.type = p.1 := by
  unfold DtoMemTypeF at h
  split at h
  · simp at h
  · rename_i tid₀ st₀ hget
    obtain ⟨h1, h2, _⟩ := getIrTypeF_create_inv hget
    simp only at h1 h2
    subst h1
    split at h
    · rename_i ir hir
      simp at h
      cases h
      exact ⟨h2, ir, hir, rfl⟩
    · simp at h

theorem slotsLE_ofEq {st st' : St} (h : st'.slots = st.slots) : SlotsLE st st' :=
  fun u v hv => by rw [h]; exact hv

theorem DtoMemTypeF_mono {store : Store} {d : Driver} (hd : DriverMono d)
    {t : TypeId} {st : St} {p : LLType × St}
    (h : DtoMemTypeF store d t st = Except.ok p) : SlotsLE st p.2 :=
  hd _ _ _ (DtoMemTypeF_inv h).1

theorem IrTypeBasicGet_mono {cfg : Config} {store : Store} {dt : TypeId} {st : St}
    {p : IrType × St} (h : IrTypeBasicGet cfg store dt st = Except.ok p) :
    SlotsLE st p.2 := by
  unfold IrTypeBasicGet at h
  split at h
  · simp at h
  split at h
  · simp at h
  rename_i t₁ st₁ hcons
  obtain ⟨-, hslots, -, hnone⟩ := construct_inv hcons
  split at h
  · simp at h
  rename_i tid₂ st₂ hread
  obtain ⟨rfl, rfl⟩ : tid₂ = stripModifiers store dt ∧ st₂ = st₁ := by
    simpa [Prod.ext_iff] using getIrTypeF_read_inv hread
  simp at h
  cases h
  exact slotsLE_trans (slotsLE_ofEq hslots) (slotsLE_setSlot (by rw [hslots]; exact hnone))

theorem IrTypePointerGet_mono {store : Store} {d : Driver} (hd : DriverMono d)
    {dt : TypeId} {st : St} {p : Option IrType × St}
    (h : IrTypePointerGet store d dt st = Except.ok p) : SlotsLE st p.2 := by
  unfold IrTypePointerGet at h
  split at h
  · simp at h
  split at h
  · simp at h
  rename_i tid₀ st₀ hread
  obtain ⟨rfl, rfl⟩ : tid₀ = stripModifiers store dt ∧ st₀ = st := by
    simpa [Prod.ext_iff] using getIrTypeF_read_inv hread
  split at h
  · simp at h
  rename_i hnone0
  split at h
  · split at h
    · simp at h
    rename_i t₁ st₁ hcons
    obtain ⟨-, hslots, -, hnone⟩ := construct_inv hcons
    simp at h
    cases h
    exact slotsLE_trans (slotsLE_ofEq hslots) (slotsLE_setSlot (by rw [hslots]; exact hnone))
  · split at h
    · simp at h
    rename_i lt₁ st₁ hmem
    have hle1 : SlotsLE st₀ st₁ := DtoMemTypeF_mono hd hmem
    split at h
    · simp at h
      cases h
      exact hle1
    · rename_i hnone1
      split at h
      · simp at h
      rename_i t₂ st₂ hcons
      obtain ⟨-, hslots, -, hnone⟩ := construct_inv hcons
      simp at h
      cases h
      exact slotsLE_trans (slotsLE_trans hle1 (slotsLE_ofEq hslots))
        (slotsLE_setSlot (by rw [hslots]; exact hnone))

theorem IrTypeSArrayGet_mono {store : Store} {d : Driver} (hd : DriverMono d)
    {dt : TypeId} {st : St} {p : Option IrType × St}
    (h : IrTypeSArrayGet store d dt st = Except.ok p) : SlotsLE st p.2 := by
  unfold IrTypeSArrayGet at h
  split at h
  · simp at h
  split at h
  · simp at h
  rename_i tid₀ st₀ hread
  obtain ⟨rfl, rfl⟩ : tid₀ = stripModifiers store dt ∧ st₀ = st := by
    simpa [Prod.ext_iff] using getIrTypeF_read_inv hread
  split at h
  · simp at h
  rename_i hnone0
  split at h
  · simp at h
  rename_i lt₁ st₁ hmem
  have hle1 : SlotsLE st₀ st₁ := DtoMemTypeF_mono hd hmem
  split at h
  · simp at h
    cases h
    exact hle1
  · rename_i hnone1
    split at h
    · simp at h
    rename_i t₂ st₂ hcons
    obtain ⟨-, hslots, -, hnone⟩ := construct_inv hcons
    simp at h
    cases h
    exact slotsLE_trans (slotsLE_trans hle1 (slotsLE_ofEq hslots))
      (slotsLE_setSlot (by rw [hslots]; exact hnone))

theorem IrTypeArrayGet_mono {cfg : Config} {store : Store} {d : Driver} (hd : DriverMono d)
    {dt : TypeId} {st : St} {p : Option IrType × St}
    (h : IrTypeArrayGet cfg store d dt st = Except.ok p) : SlotsLE st p.2 := by
  unfold IrTypeArrayGet at h
  split at h
  · simp at h
  split at h
  · simp at h
  rename_i tid₀ st₀ hread
  obtain ⟨rfl, rfl⟩ : tid₀ = stripModifiers store dt ∧ st₀ = st := by
    simpa [Prod.ext_iff] using getIrTypeF_read_inv hread
  split at h
  · simp at h
  rename_i hnone0
  split at h
  · simp at h
  rename_i lt₁ st₁ hmem
  have hle1 : SlotsLE st₀ st₁ := DtoMemTypeF_mono hd hmem
  split at h
  · simp at h
    cases h
    exact hle1
  · rename_i hnone1
    split at h
    · simp at h
    rename_i t₂ st₂ hcons
    obtain ⟨-, hslots, -, hnone⟩ := construct_inv hcons
    simp at h
    cases h
    exact slotsLE_trans (slotsLE_trans hle1 (slotsLE_ofEq hslots))
      (slotsLE_setSlot (by rw [hslots]; exact hnone))

theorem IrTypeVectorGet_mono {store : Store} {d : Driver} (hd : DriverMono d)
    {dt : TypeId} {st : St} {p : Option IrType × St}
    (h : IrTypeVectorGet store d dt st = Except.ok p) : SlotsLE st p.2 := by
  unfold IrTypeVectorGet at h
  split at h
  · simp at h
  split at h
  · simp at h
  rename_i tid₀ st₀ hread
  obtain ⟨rfl, rfl⟩ : tid₀ = stripModifiers store dt ∧ st₀ = st := by
    simpa [Prod.ext_iff] using getIrTypeF_read_inv hread
  split at h
  · simp at h
  rename_i hnone0
  split at h
  · simp at h
  rename_i hbt
  split at h
  · simp at h
  rename_i lt₁ st₁ hmem
  have hle1 : SlotsLE st₀ st₁ := DtoMemTypeF_mono hd hmem
  split at h
  · simp at h
    cases h
    exact hle1
  · rename_i hnone1
    split at h
    · simp at h
    rename_i t₂ st₂ hcons
    obtain ⟨-, hslots, -, hnone⟩ := construct_inv hcons
    simp at h
    cases h
    exact slotsLE_trans (slotsLE_trans hle1 (slotsLE_ofEq hslots))
      (slotsLE_setSlot (by rw [hslots]; exact hnone))

/-- The lowering driver never overwrites a populated slot: whatever is
cached before a (successful) `DtoType` run is still cached, with the
identical instance, afterwards. -/
theorem DtoType_mono (cfg : Config) (store : Store) :
    ∀ fuel, DriverMono (DtoType cfg store fuel) := by
  intro fuel
  induction fuel with
  | zero =>
    intro t st st' h
    simp [DtoType] at h
  | succ n ih =>
    intro t st st' h
    simp only [DtoType] at h
    split at h
    · simp at h
      cases h
      exact slotsLE_refl st
    rename_i hmemo
    split at h
    · split at h
      · simp at h
      rename_i q₁ st₁ hget
      simp at h
      cases h
      exact IrTypeBasicGet_mono hget
    split at h
    · split at h
      · simp at h
      rename_i q₁ st₁ hget
      simp at h
      cases h
      exact IrTypePointerGet_mono ih hget
    split at h
    · split at h
      · simp at h
      rename_i q₁ st₁ hget
      simp at h
      cases h
      exact IrTypeSArrayGet_mono ih hget
    split at h
    · split at h
      · simp at h
      rename_i q₁ st₁ hget
      simp at h
      cases h
      exact IrTypeArrayGet_mono ih hget
    split at h
    · split at h
      · simp at h
      rename_i q₁ st₁ hget
      simp at h
      cases h
      exact IrTypeVectorGet_mono ih hget
    split at h
    · simp at h
      cases h
      exact slotsLE_trans slotsLE_mkSlots
        (slotsLE_setSlot (by simpa using hmemo))
    · simp at h

theorem strip_mod_zero {store : Store} (hwf : WFStore store) (u : TypeId) :
    (store (stripModifiers store u)).mod = 0 := by
  unfold stripModifiers
  split
  · assumption
  · exact hwf u (by assumption)

theorem qualUntouched_refl (store : Store) (st : St) : QualUntouched store st st :=
  fun _ _ => rfl

theorem qualUntouched_trans {store : Store} {s1 s2 s3 : St}
    (h1 : QualUntouched store s1 s2) (h2 : QualUntouched store s2 s3) :
    QualUntouched store s1 s3 := fun u hu => (h2 u hu).trans (h1 u hu)

theorem qualUntouched_ofEq {store : Store} {st st' : St} (h : st'.slots = st.slots) :
    QualUntouched store st st' := fun u _ => by rw [h]

theorem qualUntouched_setSlot {store : Store} {st : St} {t : TypeId} {ir : IrType}
    (h : (store t).mod = 0) : QualUntouched store st (st.setSlot t ir) := by
  intro u hu
  simp only [St.setSlot]
  have : u ≠ t := fun he => hu (he ▸ h)
  simp [this]

theorem DtoMemTypeF_qual {store : Store} {d : Driver} (hwf : WFStore store)
    (hd : DriverQual store d) {t : TypeId} {st : St} {p : LLType × St}
    (h : DtoMemTypeF store d t st = Except.ok p) : QualUntouched store st p.2 :=
  hd _ _ _ (strip_mod_zero hwf t) (DtoMemTypeF_inv h).1

theorem IrTypeBasicGet_qual {cfg : Config} {store : Store} (hwf : WFStore store)
    {dt : TypeId} {st : St} {p : IrType × St}
    (h : IrTypeBasicGet cfg store dt st = Except.ok p) :
    QualUntouched store st p.2 := by
  unfold IrTypeBasicGet at h
  split at h
  · simp at h
  split at h
  · simp at h
  rename_i t₁ st₁ hcons
  obtain ⟨-, hslots, -, hnone⟩ := construct_inv hcons
  split at h
  · simp at h
  rename_i tid₂ st₂ hread
  obtain ⟨rfl, rfl⟩ : tid₂ = stripModifiers store dt ∧ st₂ = st₁ := by
    simpa [Prod.ext_iff] using getIrTypeF_read_inv hread
  simp at h
  cases h
  exact qualUntouched_trans (qualUntouched_ofEq hslots) (qualUntouched_setSlot (strip_mod_zero hwf dt))

theorem IrTypePointerGet_qual {store : Store} {d : Driver} (hwf : WFStore store)
    (hd : DriverQual store d) {dt : TypeId} {st : St} {p : Option IrType × St}
    (h : IrTypePointerGet store d dt st = Except.ok p) : QualUntouched store st p.2 := by
  unfold IrTypePointerGet at h
  split at h
  · simp at h
  split at h
  · simp at h
  rename_i tid₀ st₀ hread
  obtain ⟨rfl, rfl⟩ : tid₀ = stripModifiers store dt ∧ st₀ = st := by
    simpa [Prod.ext_iff] using getIrTypeF_read_inv hread
  split at h
  · simp at h
  rename_i hnone0
  split at h
  · split at h
    · simp at h
    rename_i t₁ st₁ hcons
    obtain ⟨-, hslots, -, hnone⟩ := construct_inv hcons
    simp at h
    cases h
    exact qualUntouched_trans (qualUntouched_ofEq hslots) (qualUntouched_setSlot (strip_mod_zero hwf dt))
  · split at h
    · simp at h
    rename_i lt₁ st₁ hmem
    have hle1 : QualUntouched store st₀ st₁ := DtoMemTypeF_qual hwf hd hmem
    split at h
    · simp at h
      cases h
      exact hle1
    · rename_i hnone1
      split at h
      · simp at h
      rename_i t₂ st₂ hcons
      obtain ⟨-, hslots, -, hnone⟩ := construct_inv hcons
      simp at h
      cases h
      exact qualUntouched_trans (qualUntouched_trans hle1 (qualUntouched_ofEq hslots))
        (qualUntouched_setSlot (strip_mod_zero hwf dt))

theorem IrTypeSArrayGet_qual {store : Store} {d : Driver} (hwf : WFStore store)
    (hd : DriverQual store d) {dt : TypeId} {st : St} {p : Option IrType × St}
    (h : IrTypeSArrayGet store d dt st = Except.ok p) : QualUntouched store st p.2 := by
  unfold IrTypeSArrayGet at h
  split at h
  · simp at h
  split at h
  · simp at h
  rename_i tid₀ st₀ hread
  obtain ⟨rfl, rfl⟩ : tid₀ = stripModifiers store dt ∧ st₀ = st := by
    simpa [Prod.ext_iff] using getIrTypeF_read_inv hread
  split at h
  · simp at h
  rename_i hnone0
  split at h
  · simp at h
  rename_i lt₁ st₁ hmem
  have hle1 : QualUntouched store st₀ st₁ := DtoMemTypeF_qual hwf hd hmem
  split at h
  · simp at h
    cases h
    exact hle1
  · rename_i hnone1
    split at h
    · simp at h
    rename_i t₂ st₂ hcons
    obtain ⟨-, hslots, -, hnone⟩ := construct_inv hcons
    simp at h
    cases h
    exact qualUntouched_trans (qualUntouched_trans hle1 (qualUntouched_ofEq hslots))
      (qualUntouched_setSlot (strip_mod_zero hwf dt))

theorem IrTypeArrayGet_qual {cfg : Config} {store : Store} {d : Driver} (hwf : WFStore store)
    (hd : DriverQual store d) {dt : TypeId} {st : St} {p : Option IrType × St}
    (h : IrTypeArrayGet cfg store d dt st = Except.ok p) : QualUntouched store st p.2 := by
  unfold IrTypeArrayGet at h
  split at h
  · simp at h
  split at h
  · simp at h
  rename_i tid₀ st₀ hread
  obtain ⟨rfl, rfl⟩ : tid₀ = stripModifiers store dt ∧ st₀ = st := by
    simpa [Prod.ext_iff] using getIrTypeF_read_inv hread
  split at h
  · simp at h
  rename_i hnone0
  split at h
  · simp at h
  rename_i lt₁ st₁ hmem
  have hle1 : QualUntouched store st₀ st₁ := DtoMemTypeF_qual hwf hd hmem
  split at h
  · simp at h
    cases h
    exact hle1
  · rename_i hnone1
    split at h
    · simp at h
    rename_i t₂ st₂ hcons
    obtain ⟨-, hslots, -, hnone⟩ := construct_inv hcons
    simp at h
    cases h
    exact qualUntouched_trans (qualUntouched_trans hle1 (qualUntouched_ofEq hslots))
      (qualUntouched_setSlot (strip_mod_zero hwf dt))

theorem IrTypeVectorGet_qual {store : Store} {d : Driver} (hwf : WFStore store)
    (hd : DriverQual store d) {dt : TypeId} {st : St} {p : Option IrType × St}
    (h : IrTypeVectorGet store d dt st = Except.ok p) : QualUntouched store st p.2 := by
  unfold IrTypeVectorGet at h
  split at h
  · simp at h
  split at h
  · simp at h
  rename_i tid₀ st₀ hread
  obtain ⟨rfl, rfl⟩ : tid₀ = stripModifiers store dt ∧ st₀ = st := by
    simpa [Prod.ext_iff] using getIrTypeF_read_inv hread
  split at h
  · simp at h
  rename_i hnone0
  split at h
  · simp at h
  rename_i hbt
  split at h
  · simp at h
  rename_i lt₁ st₁ hmem
  have hle1 : QualUntouched store st₀ st₁ := DtoMemTypeF_qual hwf hd hmem
  split at h
  · simp at h
    cases h
    exact hle1
  · rename_i hnone1
    split at h
    · simp at h
    rename_i t₂ st₂ hcons
    obtain ⟨-, hslots, -, hnone⟩ := construct_inv hcons
    simp at h
    cases h
    exact qualUntouched_trans (qualUntouched_trans hle1 (qualUntouched_ofEq hslots))
      (qualUntouched_setSlot (strip_mod_zero hwf dt))

/-- In a well-formed type graph, the lowering driver never writes the
slot of a qualified node. -/
theorem DtoType_qual (cfg : Config) {store : Store} (hwf : WFStore store) :
    ∀ fuel, DriverQual store (DtoType cfg store fuel) := by
  intro fuel
  induction fuel with
  | zero =>
    intro t st st' _ h
    simp [DtoType] at h
  | succ n ih =>
    intro t st st' hmod h
    simp only [DtoType] at h
    split at h
    · simp at h
      cases h
      exact qualUntouched_refl store st
    rename_i hmemo
    split at h
    · split at h
      · simp at h
      rename_i q₁ st₁ hget
      simp at h
      cases h
      exact IrTypeBasicGet_qual hwf hget
    split at h
    · split at h
      · simp at h
      rename_i q₁ st₁ hget
      simp at h
      cases h
      exact IrTypePointerGet_qual hwf ih hget
    split at h
    · split at h
      · simp at h
      rename_i q₁ st₁ hget
      simp at h
      cases h
      exact IrTypeSArrayGet_qual hwf ih hget
    split at h
    · split at h
      · simp at h
      rename_i q₁ st₁ hget
      simp at h
      cases h
      exact IrTypeArrayGet_qual hwf ih hget
    split at h
    · split at h
      · simp at h
      rename_i q₁ st₁ hget
      simp at h
      cases h
      exact IrTypeVectorGet_qual hwf ih hget
    split at h
    · simp at h
      cases h
      exact qualUntouched_trans (qualUntouched_ofEq rfl) (qualUntouched_setSlot hmod)
    · simp at h

theorem structCanon_of_ty {store : Store} {t : TypeId}
    (h : (store t).ty ≠ TY.Tstruct) : structCanon store t :=
  fun hc => h hc.1

theorem classCanon_of_ty {store : Store} {t : TypeId}
    (h : (store t).ty ≠ TY.Tclass) : classCanon store t :=
  fun hc => h hc.1

/-- A successful Entry Point call implies the canonical-form asserts
held. -/
theorem getIrTypeF_ok_canon {store : Store} {d : Driver} {t : TypeId}
    {create : Bool} {st : St} {p : TypeId × St}
    (h : getIrTypeF store d t create st = Except.ok p) :
    structCanon store t ∧ classCanon store t := by
  unfold getIrTypeF at h
  split at h
  · simp at h
  · split at h
    · simp at h
    · exact ⟨by assumption, by assumption⟩

/-- The driver returns immediately, without touching the state, when the
slot is already populated (memoization). -/
theorem DtoType_memo (cfg : Config) (store : Store) (n : Nat) (t : TypeId) (st : St)
    (h : (st.slots t).isSome = true) :
    DtoType cfg store (n + 1) t st = Except.ok st := by
  simp only [DtoType]
  rw [if_pos h]

theorem isPointer_eq_some {c ir : IrType} (h : c.isPointer = some ir) : ir = c := by
  unfold IrType.isPointer at h
  split at h
  · simpa using h.symm
  · cases h

theorem isSArray_eq_some {c ir : IrType} (h : c.isSArray = some ir) : ir = c := by
  unfold IrType.isSArray at h
  split at h
  · simpa using h.symm
  · cases h

theorem isArray_eq_some {c ir : IrType} (h : c.isArray = some ir) : ir = c := by
  unfold IrType.isArray at h
  split at h
  · simpa using h.symm
  · cases h

theorem isVector_eq_some {c ir : IrType} (h : c.isVector = some ir) : ir = c := by
  unfold IrType.isVector at h
  split at h
  · simpa using h.symm
  · cases h

/-- `IrTypeBasic::get` returns exactly the instance it stored in the
(stripped) slot. -/
theorem IrTypeBasicGet_slot {cfg : Config} {store : Store} {dt : TypeId} {st : St}
    {p : IrType × St} (h : IrTypeBasicGet cfg store dt st = Except.ok p) :
    p.2.slots (stripModifiers store dt) = some p.1 := by
  unfold IrTypeBasicGet at h
  split at h
  · simp at h
  split at h
  · simp at h
  rename_i t₁ st₁ hcons
  split at h
  · simp at h
  rename_i tid₂ st₂ hread
  obtain ⟨rfl, rfl⟩ : tid₂ = stripModifiers store dt ∧ st₂ = st₁ := by
    simpa [Prod.ext_iff] using getIrTypeF_read_inv hread
  simp at h
  cases h
  simp [St.setSlot]

/-- `IrTypePointer::get` returns (a downcast of) the content of the
(stripped) slot: a non-null return is the cached instance. -/
theorem IrTypePointerGet_slot {store : Store} {d : Driver} {dt : TypeId} {st : St}
    {ir : IrType} {st' : St}
    (h : IrTypePointerGet store d dt st = Except.ok (some ir, st')) :
    st'.slots (stripModifiers store dt) = some ir := by
  unfold IrTypePointerGet at h
  split at h
  · simp at h
  split at h
  · simp at h
  rename_i tid₀ st₀ hread
  obtain ⟨rfl, rfl⟩ : tid₀ = stripModifiers store dt ∧ st₀ = st := by
    simpa [Prod.ext_iff] using getIrTypeF_read_inv hread
  split at h
  · simp at h
  rename_i hnone0
  split at h
  · split at h
    · simp at h
    rename_i t₁ st₁ hcons
    simp at h
    obtain ⟨h1, h2⟩ := h
    cases h1
    cases h2
    simp [St.setSlot]
  · split at h
    · simp at h
    rename_i lt₁ st₁ hmem
    split at h
    · rename_i c hc
      simp at h
      obtain ⟨h1, h2⟩ := h
      cases h2
      rw [hc]
      rw [isPointer_eq_some h1]
    · rename_i hnone1
      split at h
      · simp at h
      rename_i t₂ st₂ hcons
      simp at h
      obtain ⟨h1, h2⟩ := h
      cases h1
      cases h2
      simp [St.setSlot]

theorem IrTypeSArrayGet_slot {store : Store} {d : Driver} {dt : TypeId} {st : St}
    {ir : IrType} {st' : St}
    (h : IrTypeSArrayGet store d dt st = Except.ok (some ir, st')) :
    st'.slots (stripModifiers store dt) = some ir := by
  unfold IrTypeSArrayGet at h
  split at h
  · simp at h
  split at h
  · simp at h
  rename_i tid₀ st₀ hread
  obtain ⟨rfl, rfl⟩ : tid₀ = stripModifiers store dt ∧ st₀ = st := by
    simpa [Prod.ext_iff] using getIrTypeF_read_inv hread
  split at h
  · simp at h
  rename_i hnone0
  split at h
  · simp at h
  rename_i lt₁ st₁ hmem
  split at h
  · rename_i c hc
    simp at h
    obtain ⟨h1, h2⟩ := h
    cases h2
    rw [hc]
    rw [isSArray_eq_some h1]
  · rename_i hnone1
    split at h
    · simp at h
    rename_i t₂ st₂ hcons
    obtain ⟨ht, -, -, -⟩ := construct_inv hcons
    simp at h
    obtain ⟨h1, h2⟩ := h
    cases h2
    have : ir = t₂ := isSArray_eq_some h1
    cases this
    simp [St.setSlot]

theorem IrTypeArrayGet_slot {cfg : Config} {store : Store} {d : Driver} {dt : TypeId}
    {st : St} {ir : IrType} {st' : St}
    (h : IrTypeArrayGet cfg store d dt st = Except.ok (some ir, st')) :
    st'.slots (stripModifiers store dt) = some ir := by
  unfold IrTypeArrayGet at h
  split at h
  · simp at h
  split at h
  · simp at h
  rename_i tid₀ st₀ hread
  obtain ⟨rfl, rfl⟩ : tid₀ = stripModifiers store dt ∧ st₀ = st := by
    simpa [Prod.ext_iff] using getIrTypeF_read_inv hread
  split at h
  · simp at h
  rename_i hnone0
  split at h
  · simp at h
  rename_i lt₁ st₁ hmem
  split at h
  · rename_i c hc
    simp at h
    obtain ⟨h1, h2⟩ := h
    cases h2
    rw [hc]
    rw [isArray_eq_some h1]
  · rename_i hnone1
    split at h
    · simp at h
    rename_i t₂ st₂ hcons
    obtain ⟨ht, -, -, -⟩ := construct_inv hcons
    simp at h
    obtain ⟨h1, h2⟩ := h
    cases h2
    have : ir = t₂ := isArray_eq_some h1
    cases this
    simp [St.setSlot]

theorem IrTypeVectorGet_slot {store : Store} {d : Driver} {dt : TypeId} {st : St}
    {ir : IrType} {st' : St}
    (h : IrTypeVectorGet store d dt st = Except.ok (some ir, st')) :
    st'.slots (stripModifiers store dt) = some ir := by
  unfold IrTypeVectorGet at h
  split at h
  · simp at h
  split at h
  · simp at h
  rename_i tid₀ st₀ hread
  obtain ⟨rfl, rfl⟩ : tid₀ = stripModifiers store dt ∧ st₀ = st := by
    simpa [Prod.ext_iff] using getIrTypeF_read_inv hread
  split at h
  · simp at h
  rename_i hnone0
  split at h
  · simp at h
  rename_i hbt
  split at h
  · simp at h
  rename_i lt₁ st₁ hmem
  split at h
  · rename_i c hc
    simp at h
    obtain ⟨h1, h2⟩ := h
    cases h2
    rw [hc]
    rw [isVector_eq_some h1]
  · rename_i hnone1
    split at h
    · simp at h
    rename_i t₂ st₂ hcons
    obtain ⟨ht, -, -, -⟩ := construct_inv hcons
    simp at h
    obtain ⟨h1, h2⟩ := h
    cases h2
    have : ir = t₂ := isVector_eq_some h1
    cases this
    simp [St.setSlot]

/-- A second Entry Point call for the same semantic type returns the
identical slot (hence the identical instance) and leaves the state
unchanged. -/
theorem getIrType_idem {cfg : Config} {store : Store} {fuel : Nat} {t : TypeId}
    {st : St} {tid : TypeId} {st₁ : St}
    (h : getIrType cfg store fuel t true st = Except.ok (tid, st₁)) (m : Nat) :
    getIrType cfg store (m + 1) t true st₁ = Except.ok (tid, st₁) := by
  obtain ⟨hs, hc⟩ := getIrTypeF_ok_canon h
  obtain ⟨htid, -, hsome⟩ := getIrTypeF_create_inv h
  simp only at htid
  subst htid
  unfold getIrType getIrTypeF
  rw [if_neg hs, if_neg hc]
  simp only [if_pos]
  rw [DtoType_memo cfg store m (stripModifiers store t) st₁ hsome]
  simp [hsome]

/-- C2 (amended): Extended-real ABI resolution: for every target triple,
`getReal80Type` yields the 80-bit x86 extended float exactly when the
architecture is x86 or x86-64 and the environment is neither
Microsoft-compatible (MSVC) nor Android; yields the 128-bit quad float
exactly when the target is AArch64 (either endianness) and not an Apple
OS, or is x86-64 Android; and yields the 64-bit double otherwise.  In
particular: x86-64/Linux gives the 80-bit float, x86-64/Windows-MSVC
double, AArch64/Linux quad, AArch64/macOS double, AArch64-Android quad
(by the AArch64 non-Apple rule — not double as the original claim's
example list said), and x86-64-Android quad. -/
theorem C2_extended_real_abi :
    (∀ tr : Triple,
      (getReal80Type tr = LLType.x86_fp80 ↔
        ((tr.arch = Arch.x86 ∨ tr.arch = Arch.x86_64) ∧
          tr.isWindowsMSVCEnvironment = false ∧ tr.env ≠ Env.android)) ∧
      (getReal80Type tr = LLType.fp128 ↔
        (((tr.arch = Arch.aarch64 ∨ tr.arch = Arch.aarch64_be) ∧
            tr.isOSDarwin = false) ∨
          (tr.arch = Arch.x86_64 ∧ tr.env = Env.android))) ∧
      (getReal80Type tr ≠ LLType.x86_fp80 → getReal80Type tr ≠ LLType.fp128 →
        getReal80Type tr = LLType.double)) ∧
    getReal80Type ⟨Arch.x86_64, OS.linux, Env.gnu⟩ = LLType.x86_fp80 ∧
    getReal80Type ⟨Arch.x86_64, OS.win32, Env.msvc⟩ = LLType.double ∧
    getReal80Type ⟨Arch.aarch64, OS.linux, Env.gnu⟩ = LLType.fp128 ∧
    getReal80Type ⟨Arch.aarch64, OS.macosx, Env.unknownEnv⟩ = LLType.double ∧
    getReal80Type ⟨Arch.aarch64, OS.linux, Env.android⟩ = LLType.fp128 ∧
    getReal80Type ⟨Arch.x86_64, OS.linux, Env.android⟩ = LLType.fp128 := by
  refine ⟨?_, by decide, by decide, by decide, by decide, by decide, by decide⟩
  intro tr
  obtain ⟨a, o, e⟩ := tr
  cases a <;> cases o <;> cases e <;> decide

/-- Witness for C2 at a concrete triple: the fallthrough case of the ABI
table maps an unlisted architecture to double precision. -/
theorem C2_extended_real_abi_witness :
    getReal80Type ⟨Arch.otherArch, OS.linux, Env.gnu⟩ = LLType.double :=
  (C2_extended_real_abi.1 ⟨Arch.otherArch, OS.linux, Env.gnu⟩).2.2
    (by decide) (by decide)

/-- Counterexample to C2 as stated: on the AArch64-Android target the
code resolves the 80-bit real to the 128-bit quad float (the AArch64
non-Apple rule fires), not to the 64-bit double the claim's example list
asserts. -/
theorem C2_extended_real_abi_counterexample :
    getReal80Type ⟨Arch.aarch64, OS.linux, Env.android⟩ = LLType.fp128 ∧
      getReal80Type ⟨Arch.aarch64, OS.linux, Env.android⟩ ≠ LLType.double := by
  decide

/-- C6: Complex-number layout: on every target, complex32/64/80 lower to
a two-field anonymous non-packed composite of two identically-typed
machine floats (real, imaginary), the shared field type being float32,
float64, and the target's extended-real type respectively; in particular
complex64 is a pair of 64-bit doubles on every target. -/
theorem C6_complex_layout :
    ∀ cfg : Config,
      basic2llvm cfg TY.Tcomplex32 =
        Except.ok (LLType.struct2 LLType.float LLType.float false) ∧
      basic2llvm cfg TY.Tcomplex64 =
        Except.ok (LLType.struct2 LLType.double LLType.double false) ∧
      basic2llvm cfg TY.Tcomplex80 =
        Except.ok (LLType.struct2 (getReal80Type cfg.triple)
          (getReal80Type cfg.triple) false) ∧
      basic2llvm cfg TY.Tcomplex32 = Except.ok (getComplexType LLType.float) ∧
      basic2llvm cfg TY.Tcomplex64 = Except.ok (getComplexType LLType.double) ∧
      basic2llvm cfg TY.Tcomplex80 =
        Except.ok (getComplexType (getReal80Type cfg.triple)) :=
  fun _ => ⟨rfl, rfl, rfl, rfl, rfl, rfl⟩

/-- C9: Entry-point creation postcondition: a successful creation call
always returns a populated slot; and if the delegated driver returns
with the (stripped) slot still empty, the Entry Point fails with the
fatal `t->ctype` assertion, never a recoverable error or a null result. -/
theorem C9_creation_postcondition (store : Store) (d : Driver) :
    (∀ t st tid st', getIrTypeF store d t true st = Except.ok (tid, st') →
      (st'.slots tid).isSome = true) ∧
    (∀ t st st', structCanon store t → classCanon store t →
      st.slots (stripModifiers store t) = none →
      d (stripModifiers store t) st = Except.ok st' →
      st'.slots (stripModifiers store t) = none →
      getIrTypeF store d t true st = Except.error (LErr.assertFail "t->ctype")) := by
  constructor
  · intro t st tid st' h
    obtain ⟨h1, -, h3⟩ := getIrTypeF_create_inv h
    have h1' : tid = stripModifiers store t := h1
    subst h1'
    exact h3
  · intro t st st' hsc hcc hempty hd hafter
    unfold getIrTypeF
    rw [if_neg hsc, if_neg hcc]
    simp only [if_pos]
    rw [hd]
    simp [hafter]

/-- Witness for C9: a driver that returns without populating the slot
makes the Entry Point fail the `t->ctype` assertion. -/
theorem C9_creation_postcondition_witness :
    getIrTypeF exStore idDriver 0 true st0 =
      Except.error (LErr.assertFail "t->ctype") :=
  (C9_creation_postcondition exStore idDriver).2 0 st0 st0
    (by decide) (by decide) rfl rfl rfl

/-- C10 (implicit): the Entry Point checks the canonical-form
precondition for struct and class types before stripping qualifiers, so
a qualified wrapper over a struct/class (not identical to the declaring
symbol's canonical type object) is a fatal assertion failure, even
though stripping the qualifier would have produced the canonical type. -/
theorem C10_noncanonical_aggregate_fatal (store : Store) (d : Driver)
    (q : TypeId) (create : Bool) (st : St)
    (hq : (store q).ty = TY.Tstruct ∨ (store q).ty = TY.Tclass)
    (hmod : (store q).mod ≠ 0)
    (hstrip : stripModifiers store q = (store q).symType)
    (hne : q ≠ (store q).symType) :
    getIrTypeF store d q create st =
        Except.error (LErr.assertFail "use sd->type for structs") ∨
      getIrTypeF store d q create st =
        Except.error (LErr.assertFail "use cd->type for classes") := by
  unfold getIrTypeF
  rcases hq with h | h
  · left
    rw [if_pos ⟨h, hne⟩]
  · right
    have h1 : ¬((store q).ty = TY.Tstruct ∧ q ≠ (store q).symType) := by
      rintro ⟨hc, -⟩
      rw [h] at hc
      cases hc
    rw [if_neg h1, if_pos ⟨h, hne⟩]

/-- Witness for C10: the const wrapper (node 8) over the canonical
struct (node 7) hits the struct canonical-form assertion. -/
theorem C10_noncanonical_aggregate_fatal_witness :
    getIrTypeF exStore idDriver 8 true st0 =
        Except.error (LErr.assertFail "use sd->type for structs") ∨
      getIrTypeF exStore idDriver 8 true st0 =
        Except.error (LErr.assertFail "use cd->type for classes") :=
  C10_noncanonical_aggregate_fatal exStore idDriver 8 true st0
    (Or.inl rfl) (by decide) (by decide) (by decide)

/-- C4: Pointer-lowering forward-reference protocol (I2): lowering
pointer-to-T first recursively lowers T (`DtoMemType` on the pointee)
and then re-checks the pointer type's own slot; if the recursive
lowering has already populated that slot, the existing instance is
returned (as a pointer downcast) with no further allocation; otherwise a
new pointer-to-(lowered T) is constructed and stored in the slot. -/
theorem C4_pointer_forward_reference (store : Store) (d : Driver) (dt : TypeId)
    (st : St) (elemT : LLType) (st₁ : St)
    (hty : (store dt).ty = TY.Tpointer)
    (hnone : st.slots (stripModifiers store dt) = none)
    (hmem : DtoMemTypeF store d (store dt).next st = Except.ok (elemT, st₁)) :
    (∀ c, st₁.slots (stripModifiers store dt) = some c →
      IrTypePointerGet store d dt st = Except.ok (c.isPointer, st₁)) ∧
    (st₁.slots (stripModifiers store dt) = none →
      IrTypePointerGet store d dt st =
        Except.ok
          (some (⟨st₁.nextId, IrTag.pointer, dt, LLType.pointer elemT 0⟩ : IrType),
          St.setSlot ⟨st₁.slots, st₁.nextId + 1⟩ (stripModifiers store dt)
            ⟨st₁.nextId, IrTag.pointer, dt, LLType.pointer elemT 0⟩)) := by
  have hsc : structCanon store dt := structCanon_of_ty (by rw [hty]; intro hx; cases hx)
  have hcc : classCanon store dt := classCanon_of_ty (by rw [hty]; intro hx; cases hx)
  have hread := getIrTypeF_read_eq store idDriver dt st hsc hcc
  constructor
  · intro c hc
    unfold IrTypePointerGet
    rw [hread]
    simp [hty, hnone, hmem, hc]
  · intro hb
    have hcons := construct_eq store IrTag.pointer dt (LLType.pointer elemT 0) st₁ hsc hcc hb
    unfold IrTypePointerGet
    rw [hread]
    simp [hty, hnone, hmem, hb, hcons]

/-- Witness for C4 (forward-reference branch): a recursion that deposits
a pointer instance in node 20's slot makes `IrTypePointer::get` return
that existing instance with no new allocation. -/
theorem C4_pointer_forward_reference_witness :
    IrTypePointerGet exStore fwdDriver 20 st0 = Except.ok (some fwdIr, stW) :=
  (C4_pointer_forward_reference exStore fwdDriver 20 st0 (LLType.int 32) stW
    rfl rfl rfl).1 fwdIr rfl

/-- C5: Dynamic-array (fat pointer) layout: when the slot is still empty
after the element recursion, lowering a runtime-length array of T yields
a two-field, position-indexed anonymous composite whose field 0 is the
native-width unsigned size type and whose field 1 is a pointer to
lowered T, in exactly that order. -/
theorem C5_dynamic_array_layout (cfg : Config) (store : Store) (d : Driver)
    (dt : TypeId) (st : St) (elemT : LLType) (st₁ : St)
    (hty : (store dt).ty = TY.Tarray)
    (hnone : st.slots (stripModifiers store dt) = none)
    (hmem : DtoMemTypeF store d (store dt).next st = Except.ok (elemT, st₁))
    (hb : st₁.slots (stripModifiers store dt) = none) :
    IrTypeArrayGet cfg store d dt st =
      Except.ok
        (some (⟨st₁.nextId, IrTag.array, dt,
            LLType.struct2 (DtoSize_t cfg) (LLType.pointer elemT 0) false⟩ : IrType),
        St.setSlot ⟨st₁.slots, st₁.nextId + 1⟩ (stripModifiers store dt)
          ⟨st₁.nextId, IrTag.array, dt,
            LLType.struct2 (DtoSize_t cfg) (LLType.pointer elemT 0) false⟩) := by
  have hsc : structCanon store dt := structCanon_of_ty (by rw [hty]; intro hx; cases hx)
  have hcc : classCanon store dt := classCanon_of_ty (by rw [hty]; intro hx; cases hx)
  have hread := getIrTypeF_read_eq store idDriver dt st hsc hcc
  have hcons := construct_eq store IrTag.array dt
    (LLType.struct2 (DtoSize_t cfg) (LLType.pointer elemT 0) false) st₁ hsc hcc hb
  unfold IrTypeArrayGet
  rw [hread]
  simp [hty, hnone, hmem, hb, hcons, IrType.isArray]

/-- Witness for C5: `byte[]` (node 14) lowers to the fat pointer struct
with the 64-bit size type first and the byte pointer second. -/
theorem C5_dynamic_array_layout_witness :
    IrTypeArrayGet exCfg exStore (DtoType exCfg exStore 2) 14 st0 =
      Except.ok
        (some ⟨1, IrTag.array, 14,
            LLType.struct2 (LLType.int 64) (LLType.pointer (LLType.int 8) 0) false⟩,
        St.setSlot ⟨st1b.slots, 2⟩ 14
          ⟨1, IrTag.array, 14,
            LLType.struct2 (LLType.int 64) (LLType.pointer (LLType.int 8) 0) false⟩) :=
  C5_dynamic_array_layout exCfg exStore (DtoType exCfg exStore 2) 14 st0
    (LLType.int 8) st1b rfl rfl rfl rfl

/-- C7: Fixed-size-array dimension preservation: for every element type
and every already-evaluated element count `dim` (including 0, 1 and
large values), when the slot is still empty after the element recursion,
lowering the fixed array yields a machine array of exactly `dim`
elements of the lowered element type. -/
theorem C7_fixed_array_dim (store : Store) (d : Driver) (dt : TypeId)
    (st : St) (elemT : LLType) (st₁ : St)
    (hty : (store dt).ty = TY.Tsarray)
    (hnone : st.slots (stripModifiers store dt) = none)
    (hmem : DtoMemTypeF store d (store dt).next st = Except.ok (elemT, st₁))
    (hb : st₁.slots (stripModifiers store dt) = none) :
    IrTypeSArrayGet store d dt st =
      Except.ok
        (some (⟨st₁.nextId, IrTag.sarray, dt,
            LLType.array elemT (store dt).dim⟩ : IrType),
        St.setSlot ⟨st₁.slots, st₁.nextId + 1⟩ (stripModifiers store dt)
          ⟨st₁.nextId, IrTag.sarray, dt, LLType.array elemT (store dt).dim⟩) := by
  have hsc : structCanon store dt := structCanon_of_ty (by rw [hty]; intro hx; cases hx)
  have hcc : classCanon store dt := classCanon_of_ty (by rw [hty]; intro hx; cases hx)
  have hread := getIrTypeF_read_eq store idDriver dt st hsc hcc
  have hcons := construct_eq store IrTag.sarray dt
    (LLType.array elemT (store dt).dim) st₁ hsc hcc hb
  unfold IrTypeSArrayGet
  rw [hread]
  simp [hty, hnone, hmem, hb, hcons, IrType.isSArray]

/-- Witness for C7 at dimensions 0, 1 and 2^32 over the `int` element. -/
theorem C7_fixed_array_dim_witness :
    IrTypeSArrayGet exStore (DtoType exCfg exStore 2) 11 st0 =
      Except.ok
        (some ⟨1, IrTag.sarray, 11, LLType.array (LLType.int 32) 0⟩,
        St.setSlot ⟨st1c.slots, 2⟩ 11 ⟨1, IrTag.sarray, 11, LLType.array (LLType.int 32) 0⟩) ∧
    IrTypeSArrayGet exStore (DtoType exCfg exStore 2) 12 st0 =
      Except.ok
        (some ⟨1, IrTag.sarray, 12, LLType.array (LLType.int 32) 1⟩,
        St.setSlot ⟨st1c.slots, 2⟩ 12 ⟨1, IrTag.sarray, 12, LLType.array (LLType.int 32) 1⟩) ∧
    IrTypeSArrayGet exStore (DtoType exCfg exStore 2) 13 st0 =
      Except.ok
        (some ⟨1, IrTag.sarray, 13, LLType.array (LLType.int 32) 4294967296⟩,
        St.setSlot ⟨st1c.slots, 2⟩ 13
          ⟨1, IrTag.sarray, 13, LLType.array (LLType.int 32) 4294967296⟩) :=
  ⟨C7_fixed_array_dim exStore (DtoType exCfg exStore 2) 11 st0 (LLType.int 32) st1c
      rfl rfl rfl rfl,
    C7_fixed_array_dim exStore (DtoType exCfg exStore 2) 12 st0 (LLType.int 32) st1c
      rfl rfl rfl rfl,
    C7_fixed_array_dim exStore (DtoType exCfg exStore 2) 13 st0 (LLType.int 32) st1c
      rfl rfl rfl rfl⟩

/-- C8: Vector lowering: the basetype must be a fixed-size array
(fatally asserted otherwise); when it is, and the slot is still empty
after the element recursion, lowering yields a fixed-width,
non-scalable machine vector of exactly the basetype's dimension many
lanes of the lowered element type. -/
theorem C8_vector_lanes (store : Store) (d : Driver) (dt : TypeId) (st : St)
    (hty : (store dt).ty = TY.Tvector)
    (hnone : st.slots (stripModifiers store dt) = none) :
    ((store (store dt).basetype).ty ≠ TY.Tsarray →
      IrTypeVectorGet store d dt st = Except.error (LErr.assertFail "assert(tsa)")) ∧
    (∀ elemT st₁, (store (store dt).basetype).ty = TY.Tsarray →
      DtoMemTypeF store d (store (store dt).basetype).next st = Except.ok (elemT, st₁) →
      st₁.slots (stripModifiers store dt) = none →
      IrTypeVectorGet store d dt st =
        Except.ok
          (some (⟨st₁.nextId, IrTag.vector, dt,
              LLType.vector elemT (store (store dt).basetype).dim false⟩ : IrType),
          St.setSlot ⟨st₁.slots, st₁.nextId + 1⟩ (stripModifiers store dt)
            ⟨st₁.nextId, IrTag.vector, dt,
              LLType.vector elemT (store (store dt).basetype).dim false⟩)) := by
  have hsc : structCanon store dt := structCanon_of_ty (by rw [hty]; intro hx; cases hx)
  have hcc : classCanon store dt := classCanon_of_ty (by rw [hty]; intro hx; cases hx)
  have hread := getIrTypeF_read_eq store idDriver dt st hsc hcc
  constructor
  · intro hbt
    unfold IrTypeVectorGet
    rw [hread]
    simp [hty, hnone, hbt]
  · intro elemT st₁ hbt hmem hb
    have hcons := construct_eq store IrTag.vector dt
      (LLType.vector elemT (store (store dt).basetype).dim false) st₁ hsc hcc hb
    unfold IrTypeVectorGet
    rw [hread]
    simp [hty, hnone, hbt, hmem, hb, hcons, IrType.isVector]

/-- Witness for C8: the vector node 6 over `float[4]` lowers to a
non-scalable 4-lane float32 machine vector. -/
theorem C8_vector_lanes_witness :
    IrTypeVectorGet exStore (DtoType exCfg exStore 2) 6 st0 =
      Except.ok
        (some ⟨1, IrTag.vector, 6, LLType.vector LLType.float 4 false⟩,
        St.setSlot ⟨st1f.slots, 2⟩ 6 ⟨1, IrTag.vector, 6, LLType.vector LLType.float 4 false⟩) :=
  (C8_vector_lanes exStore (DtoType exCfg exStore 2) 6 st0 rfl rfl).2
    LLType.float st1f rfl rfl rfl

/-- C1: Single-instance / idempotence (I1): (i) a second Entry Point
call for the same semantic type returns the identical slot and instance
and leaves the state unchanged; (ii) the lowering driver never
overwrites a populated slot; (iii) constructing a second `IrType` for an
already-populated slot is a fatal assertion; (iv)-(viii) every category
`::get` returns exactly the (downcast) content of the type's slot on
return. -/
theorem C1_single_instance (cfg : Config) (store : Store) :
    (∀ fuel t st tid st₁ m,
      getIrType cfg store fuel t true st = Except.ok (tid, st₁) →
      getIrType cfg store (m + 1) t true st₁ = Except.ok (tid, st₁)) ∧
    (∀ fuel, DriverMono (DtoType cfg store fuel)) ∧
    (∀ tag dt lt st v p, st.slots (stripModifiers store dt) = some v →
      IrType.construct store tag dt lt st ≠ Except.ok p) ∧
    (∀ dt st p, IrTypeBasicGet cfg store dt st = Except.ok p →
      p.2.slots (stripModifiers store dt) = some p.1) ∧
    (∀ d dt st ir st', IrTypePointerGet store d dt st = Except.ok (some ir, st') →
      st'.slots (stripModifiers store dt) = some ir) ∧
    (∀ d dt st ir st', IrTypeSArrayGet store d dt st = Except.ok (some ir, st') →
      st'.slots (stripModifiers store dt) = some ir) ∧
    (∀ d dt st ir st', IrTypeArrayGet cfg store d dt st = Except.ok (some ir, st') →
      st'.slots (stripModifiers store dt) = some ir) ∧
    (∀ d dt st ir st', IrTypeVectorGet store d dt st = Except.ok (some ir, st') →
      st'.slots (stripModifiers store dt) = some ir) :=
  ⟨fun _ _ _ _ _ m h => getIrType_idem h m,
    DtoType_mono cfg store,
    fun _ _ _ _ _ p hsome => construct_fatal hsome p,
    fun _ _ _ h => IrTypeBasicGet_slot h,
    fun _ _ _ _ _ h => IrTypePointerGet_slot h,
    fun _ _ _ _ _ h => IrTypeSArrayGet_slot h,
    fun _ _ _ _ _ h => IrTypeArrayGet_slot h,
    fun _ _ _ _ _ h => IrTypeVectorGet_slot h⟩

/-- Witness for C1: after lowering the `int` node once (producing
`st1c`), a second Entry Point call returns the same slot and leaves the
state unchanged. -/
theorem C1_single_instance_witness :
    getIrType exCfg exStore 3 0 true st1c = Except.ok (0, st1c) :=
  (C1_single_instance exCfg exStore).1 2 0 st0 0 st1c 2 rfl

/-- Counterexample to C3 as stated: for the struct type at node 7 and
its qualified (const) wrapper at node 8, lowering the wrapper is a fatal
canonical-form assertion while lowering the struct itself succeeds, so
the two do not yield the same Lowered Type instance. -/
theorem C3_qualifier_transparency_counterexample :
    getIrType exCfg exStore 2 8 true st0 =
      Except.error (LErr.assertFail "use sd->type for structs") ∧
    getIrType exCfg exStore 2 7 true st0 =
      Except.ok (7,
        ⟨fun u => if u = 7 then some ⟨0, IrTag.aggregate, 7, LLType.aggregateBody 7⟩
          else none, 1⟩) :=
  ⟨rfl, rfl⟩

/-- C3 (amended): Qualifier transparency for every non-aggregate
semantic type: the Entry Point behaves identically on a qualified
wrapper and on its unqualified underlying type (it strips qualifiers
before any lookup or creation), and, on a well-formed type graph, the
lowering driver never writes the slot of a qualified node — a qualified
type never receives its own slot entry. -/
theorem C3_qualifier_transparency_amended (store : Store) (d : Driver) :
    (∀ q t create st,
      (store q).mod ≠ 0 → (store q).unqual = t → (store t).mod = 0 →
      (store q).ty ≠ TY.Tstruct → (store q).ty ≠ TY.Tclass →
      (store t).ty ≠ TY.Tstruct → (store t).ty ≠ TY.Tclass →
      getIrTypeF store d q create st = getIrTypeF store d t create st) ∧
    (∀ cfg, WFStore store → ∀ fuel, DriverQual store (DtoType cfg store fuel)) := by
  constructor
  · intro q t create st hmq huq hmt hqs hqc hts htc
    have h1 : stripModifiers store q = t := by
      unfold stripModifiers
      rw [if_neg hmq, huq]
    have h2 : stripModifiers store t = t := by
      unfold stripModifiers
      rw [if_pos hmt]
    unfold getIrTypeF
    rw [if_neg (structCanon_of_ty hqs), if_neg (classCanon_of_ty hqc),
      if_neg (structCanon_of_ty hts), if_neg (classCanon_of_ty htc)]
    simp only [h1, h2]
  · intro cfg hwf
    exact DtoType_qual cfg hwf

/-- Witness for C3 (amended): lowering the const wrapper (node 9) over
`int` (node 0) is the very same call as lowering `int`. -/
theorem C3_qualifier_transparency_amended_witness :
    getIrType exCfg exStore 2 9 true st0 = getIrType exCfg exStore 2 0 true st0 :=
  (C3_qualifier_transparency_amended exStore (DtoType exCfg exStore 2)).1
    9 0 true st0 (by decide) (by decide) (by decide) (by decide) (by decide)
    (by decide) (by decide)

end IrLower
